import Mathlib

/-!
# Verification of the Targeting & Confirmation Engine (rzvdev/unfollowed)

A shallow embedding of the decision logic of the repository:

* `src/core/safety.py`        — `SafetyMonitor` counters and quota logic
* `src/core/batch_runner.py`  — history log append, batch orchestration
* `src/vision/locator.py`     — row iteration and fuzzy username matching
* `src/vision/ocr_reader.py`  — OCR token extraction and debug-image save
* `src/core/unfollow_worker.py` — per-item workflow and confirmation polling

Machine integers are modelled as `Nat`/`Int` (Python ints are unbounded),
Python strings as lists of code points (`List Nat`), floats that only carry
similarity ratios / thresholds as `ℚ`.  External effects (screen capture,
OCR output, template matching, file I/O) are supplied as explicit oracle
data; fallible Python calls are `Except`.
-/

namespace Unfollowed

/-! ## SafetyMonitor (src/core/safety.py)

The counter state of the monitor: `daily_cap` comes from config as a Python int
(may be non-positive, meaning unlimited), `actions_today` is replayed from
the persisted log, `session_actions` starts at 0.  `check_block_screenshot`
is pure in the frame and the configured phrases, so it is modelled
separately as an oracle where needed. -/

structure SafetyMonitor where
  dailyCap : Int
  actionsToday : Nat
  sessionActions : Nat
  deriving Repr, DecidableEq

/-- Model of `has_daily_capacity` (safety.py:65-68). -/
def SafetyMonitor.hasDailyCapacity (m : SafetyMonitor) : Bool :=
  if m.dailyCap ≤ 0 then true
  else decide ((m.actionsToday + m.sessionActions : Int) < m.dailyCap)

/-- Model of `register_result` (safety.py:70-72): only `"unfollowed"` increments. -/
def SafetyMonitor.registerResult (m : SafetyMonitor) (status : String) : SafetyMonitor :=
  if status = "unfollowed" then { m with sessionActions := m.sessionActions + 1 } else m

/-- Model of `remaining_daily_quota` (safety.py:74-77). -/
def SafetyMonitor.remainingDailyQuota (m : SafetyMonitor) : Option Int :=
  if m.dailyCap ≤ 0 then none
  else some (max (m.dailyCap - (m.actionsToday + m.sessionActions)) 0)

/-! ## History log (src/core/batch_runner.py:38-55)

The on-disk session log is modelled by its parse outcome: missing file,
unparsable JSON, JSON that is not a list, or a JSON list of records.
A record is the `to_dict` image of an `UnfollowResult`; for log-level
reasoning only its `status` field matters downstream (`safety.py:41`),
so records are kept abstract as a type parameter-free `LogRecord`. -/

structure LogRecord where
  username : String
  status : String
  deriving Repr, DecidableEq

inductive LogFile where
  | missing
  | malformed
  | notList
  | jsonList (records : List LogRecord)
  deriving Repr, DecidableEq

/-- Model of `_load_existing_log` (batch_runner.py:38-48): a missing file, a JSON
decode error, or a non-list document all yield the empty history. -/
def loadExistingLog : LogFile → List LogRecord
  | .jsonList rs => rs
  | _ => []

/-- Model of `_append_log` (batch_runner.py:51-55): load, append, rewrite whole file. -/
def appendLog (f : LogFile) (r : LogRecord) : LogFile :=
  .jsonList (loadExistingLog f ++ [r])

/-- Model of `_count_actions_from_log` (safety.py:31-41): count `"unfollowed"` records;
missing/malformed/non-list history counts as 0. -/
def countActionsFromLog (f : LogFile) : Nat :=
  (loadExistingLog f).countP (fun r => r.status = "unfollowed")

/-! ## RowScanner (src/vision/locator.py:93-111)

`PopupGeometry` keeps the integer pixel quantities from `build_geometry`.
`_iter_rows` yields `(row_top, crop_box)` pairs; the cropped image is
identified with its crop box `(left, upper, right, lower)`.  Note that the
source computes `popup_bottom = min(popup_top + screenshot.height -
popup_top, screenshot.height)`, which simplifies to the frame height.

The source `while True:` loop does not terminate when `row_height = 0`
(it would yield the same row forever); the embedding returns `[]` in that
case, which is irrelevant to the claims (all stated for `row_height > 0`). -/

structure PopupGeometry where
  top_margin : Nat
  left_margin : Nat
  width : Nat
  row_height : Nat
  ocr_offset_x : Nat
  ocr_offset_y : Nat
  ocr_width : Nat
  ocr_height : Nat
  button_offset_x : Nat
  button_offset_y : Nat
  deriving Repr, DecidableEq

abbrev CropBox := Nat × Nat × Nat × Nat

def rowCropBox (g : PopupGeometry) (rowTop : Nat) : CropBox :=
  (g.left_margin, rowTop, g.left_margin + g.width, rowTop + g.row_height)

def iterRowsAux (g : PopupGeometry) (popupBottom : Nat) (rowTop : Nat) :
    List (Nat × CropBox) :=
  if _h1 : popupBottom < rowTop + g.row_height then []
  else if _h2 : g.row_height = 0 then []
  else (rowTop, rowCropBox g rowTop) :: iterRowsAux g popupBottom (rowTop + g.row_height)
termination_by popupBottom - rowTop
decreasing_by omega

/-- Model of `_iter_rows` (locator.py:93-111), with the frame identified with its
height (the crop also uses the frame width only through the box bounds). -/
def iterRows (g : PopupGeometry) (frameHeight : Nat) : List (Nat × CropBox) :=
  let popupTop := g.top_margin
  let popupBottom := min (popupTop + frameHeight - popupTop) frameHeight
  iterRowsAux g popupBottom popupTop

/-! ## Python string model

Python strings are modelled as lists of code points.  `str.lower` and the
default `str.strip` whitespace set are modelled for the ASCII range (all
identifiers handled by the program are ASCII usernames). -/

abbrev PyStr := List Nat

/-- Code points of a Lean string literal, for concrete examples. -/
def pyStr (s : String) : PyStr := s.toList.map Char.toNat

/-- ASCII model of `str.lower` on one code point. -/
def lowerCode (n : Nat) : Nat := if 65 ≤ n ∧ n ≤ 90 then n + 32 else n

/-- Model of `str.lower`. -/
def pyLower (s : PyStr) : PyStr := s.map lowerCode

/-- Default `str.strip` whitespace, ASCII range (space, TAB..CR). -/
def isSpaceCode (n : Nat) : Bool := n = 32 || (9 ≤ n && n ≤ 13)

/-- Model of `str.strip()`. -/
def pyStrip (s : PyStr) : PyStr :=
  ((s.dropWhile isSpaceCode).reverse.dropWhile isSpaceCode).reverse

/-- Model of `text.strip().lower()` as used on candidate and target (locator.py:158,203). -/
def pyNormalize (s : PyStr) : PyStr := pyLower (pyStrip s)

/-- Membership in `[a-z0-9]` after lowering. -/
def isLowerAlnum (n : Nat) : Bool := (97 ≤ n && n ≤ 122) || (48 ≤ n && n ≤ 57)

/-- Model of `sanitize = lambda text: re.sub(r"[^a-z0-9]", "", text.lower())`
(locator.py:160). -/
def sanitize (s : PyStr) : PyStr := (pyLower s).filter isLowerAlnum

/-! ## OCR token extraction and the debug-image save (src/vision/ocr_reader.py)

`read_username` runs Tesseract on the preprocessed region (the raw OCR text
is an oracle input here), collects every maximal run matching
`[A-Za-z0-9._]+`, and returns the longest run (first on ties), stripped.
Before the OCR call it executes `processed.save("logs/debug/last_ocr_processed.png")`
with no exception handler, so a failing save propagates; the save outcome
is an explicit `Except` input and the result of the function is `Except`,
mirroring Python exception flow. -/

/-- Membership in the `USERNAME_PATTERN` class `[A-Za-z0-9._]`. -/
def isUserChar (n : Nat) : Bool :=
  (65 ≤ n && n ≤ 90) || (97 ≤ n && n ≤ 122) || (48 ≤ n && n ≤ 57) || n = 46 || n = 95

/-- Maximal runs of `isUserChar` (i.e. `USERNAME_PATTERN.findall`), in order. -/
def usernameTokensAux : PyStr → PyStr → List PyStr
  | [], cur => if cur = [] then [] else [cur.reverse]
  | c :: rest, cur =>
    if isUserChar c then usernameTokensAux rest (c :: cur)
    else if cur = [] then usernameTokensAux rest []
    else cur.reverse :: usernameTokensAux rest []

def usernameTokens (s : PyStr) : List PyStr := usernameTokensAux s []

/-- Model of `max(matches, key=len)`: longest token, first occurrence on ties. -/
def pickLongest : List PyStr → Option PyStr
  | [] => none
  | t :: ts => some (ts.foldl (fun best tk => if best.length < tk.length then tk else best) t)

/-- Model of `read_username` (ocr_reader.py:32-45).  `saveOutcome` is the outcome of
the unguarded `processed.save(...)` call at ocr_reader.py:35; `rawText` the
Tesseract output for this image. -/
def readUsername (saveOutcome : Except String Unit) (rawText : PyStr) :
    Except String (Option PyStr) :=
  match saveOutcome with
  | .error e => .error e
  | .ok () =>
    match pickLongest (usernameTokens rawText) with
    | none => .ok none
    | some tk => .ok (some (pyStrip tk))

/-- Model of `_extract_username` (locator.py:120-146).  Its own debug save is wrapped
in `try/except OSError` (locator.py:141-144) and swallowed regardless of
`debugSaveOutcome`; the nested `read_username` call is outside that `try`,
so its exception propagates. -/
def extractUsername (debugDir : Bool) (debugSaveOutcome : Except String Unit)
    (ocrSaveOutcome : Except String Unit) (rawText : PyStr) :
    Except String (Option PyStr) :=
  match readUsername ocrSaveOutcome rawText with
  | .error e => .error e
  | .ok detected =>
    -- debug_dir branch: label/path computation and a swallowed save
    match debugDir, debugSaveOutcome with
    | _, _ => .ok detected

/-! ## difflib `SequenceMatcher.ratio` (Python stdlib, called at locator.py:183)

The locator computes `SequenceMatcher(None, candidate, normalized_target).ratio()`.
`isjunk` is `None`, and the candidates are short identifiers, so the
autojunk popular-element rule (active only for second sequences of
length ≥ 200) never fires; junk handling is therefore omitted and the junk
extension loops of `find_longest_match` are no-ops.  The main loop and the
non-junk extension loops are transcribed from the difflib in CPython. -/

/-- Positions list `b2j[a[i]]` restricted to `[blo, bhi)`: increasing positions of `c` in
`b` (the `j < blo: continue` / `j >= bhi: break` filtering of the inner
loop). -/
def b2jIndices (b : PyStr) (c : Nat) (blo bhi : Nat) : List Nat :=
  (List.range b.length).filter
    (fun j => b.getD j 0 = c && decide (blo ≤ j) && decide (j < bhi))

/-- One row `i` of the `find_longest_match` main loop: fold over the `j`
positions, reading lengths from the previous row table `j2len` (missing keys,
including the `j = 0` read of key `-1`, give 0) and building the new row;
a strictly larger run updates the best block. -/
def flmRow (i : Nat) (oldJ2len : Nat → Nat) (js : List Nat)
    (best : Nat × Nat × Nat) : (Nat → Nat) × (Nat × Nat × Nat) :=
  js.foldl
    (fun acc j =>
      let k := (if j = 0 then 0 else oldJ2len (j - 1)) + 1
      let newJ2len := fun jj => if jj = j then k else acc.1 jj
      let best' := if acc.2.2.2 < k then (i + 1 - k, j + 1 - k, k) else acc.2
      (newJ2len, best'))
    ((fun _ => 0), best)

/-- Main double loop of `find_longest_match`. -/
def flmMain (a b : PyStr) (alo ahi blo bhi : Nat) : Nat × Nat × Nat :=
  ((List.range' alo (ahi - alo)).foldl
    (fun acc i => flmRow i acc.1 (b2jIndices b (a.getD i 0) blo bhi) acc.2)
    ((fun _ => 0), (alo, blo, 0))).2

/-- Non-junk extension towards lower indices (`while besti > alo and
bestj > blo and ... a[besti-1] == b[bestj-1]`).  The first argument is
fuel keeping the recursion structural; called with `fuel = besti` the
invariant `fuel = besti` holds throughout, and the `fuel = 0` case has
`besti = 0`, where the loop condition is false anyway — so the fuel never
cuts the loop short. -/
def flmExtendLo (a b : PyStr) (alo blo : Nat) : Nat → Nat → Nat → Nat → Nat × Nat × Nat
  | 0, besti, bestj, bestsize => (besti, bestj, bestsize)
  | fuel + 1, besti, bestj, bestsize =>
    if alo < besti ∧ blo < bestj ∧ a.getD (besti - 1) 0 = b.getD (bestj - 1) 0 then
      flmExtendLo a b alo blo fuel (besti - 1) (bestj - 1) (bestsize + 1)
    else (besti, bestj, bestsize)

/-- Non-junk extension towards higher indices; fuel-structural, called with
`fuel = ahi - (besti + bestsize)`, which is 0 exactly when the loop
condition is already false. -/
def flmExtendHi (a b : PyStr) (ahi bhi : Nat) : Nat → Nat → Nat → Nat → Nat
  | 0, _, _, bestsize => bestsize
  | fuel + 1, besti, bestj, bestsize =>
    if besti + bestsize < ahi ∧ bestj + bestsize < bhi ∧
        a.getD (besti + bestsize) 0 = b.getD (bestj + bestsize) 0 then
      flmExtendHi a b ahi bhi fuel besti bestj (bestsize + 1)
    else bestsize

/-- Model of `find_longest_match(alo, ahi, blo, bhi)` for empty junk. -/
def findLongestMatch (a b : PyStr) (alo ahi blo bhi : Nat) : Nat × Nat × Nat :=
  let m := flmMain a b alo ahi blo bhi
  let e := flmExtendLo a b alo blo m.1 m.1 m.2.1 m.2.2
  (e.1, e.2.1, flmExtendHi a b ahi bhi (ahi - (e.1 + e.2.2)) e.1 e.2.1 e.2.2)

/-- Total matched size over the divide-and-conquer of `get_matching_blocks`
recursion (sorting and merging of adjacent blocks do not change the sum,
which is all `ratio` uses).  `fuel` makes the recursion structural; each
sub-problem is strictly smaller than `(ahi - alo) + (bhi - blo)`, so the
initial fuel `a.length + b.length + 1` never runs out. -/
def matchingSum (a b : PyStr) : Nat → Nat → Nat → Nat → Nat → Nat
  | 0, _, _, _, _ => 0
  | fuel + 1, alo, ahi, blo, bhi =>
    let m := findLongestMatch a b alo ahi blo bhi
    let i := m.1
    let j := m.2.1
    let k := m.2.2
    if k = 0 then 0
    else k + (if alo < i ∧ blo < j then matchingSum a b fuel alo i blo j else 0)
           + (if i + k < ahi ∧ j + k < bhi then matchingSum a b fuel (i + k) ahi (j + k) bhi else 0)

/-- Model of `SequenceMatcher(None, a, b).ratio()` as a rational.  Python raises
`ZeroDivisionError` when both sequences are empty; the embedding returns 0
there (the locator never reaches the ratio with an empty candidate:
falsy detections are skipped at locator.py:201). -/
def ratioQ (a b : PyStr) : ℚ :=
  let m := matchingSum a b (a.length + b.length + 1) 0 a.length 0 b.length
  if a.length + b.length = 0 then 0
  else (2 * m : ℚ) / ((a.length : ℚ) + (b.length : ℚ))

/-! ## Fuzzy match decision (locator.py:178-209)

The per-candidate decision inside the loop of `locate_following_button`:
fast path `sanitize(normalized_candidate) == sanitized_target`, else
`_is_match(normalized_candidate)` (exact normalized equality, else
ratio ≥ threshold).  The `SequenceMatcher is None` import-failure branch
(locator.py:181-182) cannot fire — difflib is stdlib — and is omitted. -/

/-- Model of `_is_match` (locator.py:178-184), applied to the normalized candidate. -/
def isMatchFn (candidate normalizedTarget : PyStr) (threshold : ℚ) : Bool :=
  if candidate = normalizedTarget then true
  else decide (threshold ≤ ratioQ candidate normalizedTarget)

/-- The whole accept decision for one detected candidate against the target
(locator.py:203-207). -/
def matchOK (candidate target : PyStr) (threshold : ℚ) : Bool :=
  let normalizedTarget := pyNormalize target
  let sanitizedTarget := sanitize target
  let normalizedCandidate := pyNormalize candidate
  if sanitize normalizedCandidate = sanitizedTarget then true
  else isMatchFn normalizedCandidate normalizedTarget threshold

/-! ## Per-item workflow (src/core/unfollow_worker.py)

Frames are identified by opaque ids.  A `WorkerEnv` packages the external
observations one `run_unfollow` call can make: the frame captured at the
start, the frames captured by each confirmation poll round, the verdict of the template
matcher on a frame (`find_best_match` at
`CONFIRM_CONFIDENCE_THRESHOLD`), the verdict of the locator on a frame for this
item against its username, whether the confirmation template file exists, and the
pixel size of the template image.  The block-phrase detector
(`check_block_screenshot`) is passed separately so that the absent-monitor
case can be expressed.  Sleeps have no observable effect in the model;
capture counts stand in for sleep-then-capture rounds. -/

abbrev Frame := Nat

structure WorkerEnv where
  initialFrame : Frame
  templateExists : Bool
  templateWidth : Nat
  templateHeight : Nat
  confirmFrames : Nat → Frame
  matchOn : Frame → Option (Nat × Nat × ℚ)
  locate : Frame → Option (Nat × Nat)

/-- Constant `CONFIRM_MAX_ATTEMPTS = 8` (unfollow_worker.py:25). -/
def CONFIRM_MAX_ATTEMPTS : Nat := 8

/-- Observable outcome of `_confirm_unfollow`: its return triple plus the
number of `capture_fullscreen` calls and the confirming clicks issued. -/
structure ConfirmOutcome where
  found : Bool
  confidence : Option ℚ
  lastFrame : Option Frame
  captures : Nat
  clicks : List (Nat × Nat)
  deriving DecidableEq

/-- Loop body of `_confirm_unfollow` (unfollow_worker.py:81-99) over the
remaining attempt indices.  On a miss the frame of the round becomes
`last_screenshot` and the loop continues; on a hit the center of the match
is clicked (unless dry-run) and the loop exits. -/
def confirmLoop (env : WorkerEnv) (dryRun : Bool) :
    List Nat → Option Frame → ConfirmOutcome
  | [], last => ⟨false, none, last, 0, []⟩
  | attempt :: rest, _ =>
    let frame := env.confirmFrames attempt
    match env.matchOn frame with
    | none =>
      let r := confirmLoop env dryRun rest (some frame)
      ⟨r.found, r.confidence, r.lastFrame, r.captures + 1, r.clicks⟩
    | some (mx, my, conf) =>
      let bx := mx + env.templateWidth / 2
      let by_ := my + env.templateHeight / 2
      ⟨true, some conf, some frame, 1, if dryRun then [] else [(bx, by_)]⟩

/-- Model of `_confirm_unfollow` (unfollow_worker.py:69-99).  A missing
template file returns `(False, None, None)` at once, before any capture. -/
def confirmUnfollow (env : WorkerEnv) (dryRun : Bool) : ConfirmOutcome :=
  if env.templateExists then
    confirmLoop env dryRun (List.range CONFIRM_MAX_ATTEMPTS) none
  else ⟨false, none, none, 0, []⟩

/-- Details payload of an `UnfollowResult`, with one optional slot per key
the source ever stores (absent key = `none`).  Timestamps are dropped:
they are wall-clock noise with no role in any claim. -/
structure Details where
  blockPhrase : Option String
  buttonCoords : Option (Nat × Nat)
  confirmConfidence : Option ℚ
  message : Option String
  deriving DecidableEq, Repr

structure UnfollowResult where
  username : String
  status : String
  details : Details
  deriving DecidableEq, Repr

/-- Full observable behaviour of one `run_unfollow` call: the returned
result, whether `locator.locate_following_button` was invoked, the click
on the Following button of the row (if any), and the observable
outcome of the confirmation poller (if the poll step was reached). -/
structure RunOutcome where
  result : UnfollowResult
  locateInvoked : Bool
  buttonClicks : List (Nat × Nat)
  confirm : Option ConfirmOutcome

/-- Model of `run_unfollow` (unfollow_worker.py:102-173). -/
def runUnfollow (env : WorkerEnv) (username : String) (dryRun : Bool)
    (check : Option (Frame → Option String)) : RunOutcome :=
  let screenshot := env.initialFrame
  let block1 : Option String :=
    match check with
    | some c => c screenshot
    | none => none
  match block1 with
  | some phrase =>
    ⟨⟨username, "blocked", ⟨some phrase, none, none, none⟩⟩, false, [], none⟩
  | none =>
    match env.locate screenshot with
    | none =>
      ⟨⟨username, "not_found",
        ⟨none, none, none, some ("Username not visible in current viewport")⟩⟩,
       true, [], none⟩
    | some coords =>
      if dryRun then
        ⟨⟨username, "dry_run", ⟨none, some coords, none, none⟩⟩, true, [], none⟩
      else
        let co := confirmUnfollow env dryRun
        let inspect := co.lastFrame.getD screenshot
        let block2 : Option String :=
          match check with
          | some c => c inspect
          | none => none
        match block2 with
        | some phrase =>
          ⟨⟨username, "blocked", ⟨some phrase, some coords, none, none⟩⟩,
           true, [coords], some co⟩
        | none =>
          if co.found then
            ⟨⟨username, "unfollowed", ⟨none, some coords, co.confidence, none⟩⟩,
             true, [coords], some co⟩
          else
            ⟨⟨username, "confirm_not_found", ⟨none, some coords, none, none⟩⟩,
             true, [coords], some co⟩

/-! ## Batch orchestration (src/core/batch_runner.py:77-104)

The generator `run_batch` is modelled fully drained (as `main.py` drains
it): the list of yielded results, the final log file, the final monitor
state, and — as an instrumentation trace — the sequence of
`register_result` calls.  Per-item visual behaviour comes from an
index-dependent family of `WorkerEnv`s; the block detector is shared.
Cooldown sleeps (`_should_pause`) have no observable effect. -/

def toRecord (r : UnfollowResult) : LogRecord := ⟨r.username, r.status⟩

structure BatchOutcome where
  results : List UnfollowResult
  log : LogFile
  monitor : SafetyMonitor
  registered : List String

/-- Loop of `run_batch` (batch_runner.py:88-104): stop when the index
reaches the session cap or daily capacity is gone; otherwise run the item,
register its status, append it to the log, and stop after a `blocked`
result. -/
def runBatchAux (envs : Nat → WorkerEnv) (check : Frame → Option String)
    (dryRun : Bool) (sessionCap : Int) :
    List String → Nat → SafetyMonitor → LogFile → List String → BatchOutcome
  | [], _, m, log, regs => ⟨[], log, m, regs⟩
  | u :: rest, idx, m, log, regs =>
    if sessionCap ≤ (idx : Int) then ⟨[], log, m, regs⟩
    else if !m.hasDailyCapacity then ⟨[], log, m, regs⟩
    else
      let out := runUnfollow (envs idx) u dryRun (some check)
      let m2 := m.registerResult out.result.status
      let log2 := appendLog log (toRecord out.result)
      let regs2 := regs ++ [out.result.status]
      if out.result.status = "blocked" then ⟨[out.result], log2, m2, regs2⟩
      else
        let next := runBatchAux envs check dryRun sessionCap rest (idx + 1) m2 log2 regs2
        ⟨out.result :: next.results, next.log, next.monitor, next.registered⟩

/-- Model of `run_batch` (batch_runner.py:77-104): the monitor is seeded by
replaying the existing log (`SafetyMonitor.__init__`, safety.py:55-63). -/
def runBatch (envs : Nat → WorkerEnv) (check : Frame → Option String)
    (dryRun : Bool) (sessionCap dailyCap : Int)
    (usernames : List String) (initialLog : LogFile) : BatchOutcome :=
  runBatchAux envs check dryRun sessionCap usernames 0
    ⟨dailyCap, countActionsFromLog initialLog, 0⟩ initialLog []

/-! ## Concrete environments used by witnesses and counterexamples -/

/-- A block screen on the very first capture: the detector fires on every
frame. -/
def envBlocked : WorkerEnv :=
  ⟨0, true, 4, 4, fun n => n + 1, fun _ => none, fun _ => some (100, 200)⟩

def checkAlways : Frame → Option String := fun _ => some ("action blocked")

def checkNever : Frame → Option String := fun _ => none

/-- Missing confirmation template, locator hit, no block anywhere. -/
def envNoTemplate : WorkerEnv :=
  ⟨0, false, 4, 4, fun n => n + 1, fun _ => none, fun _ => some (100, 200)⟩

/-- Confirmation succeeds on the first poll round (frame 10) and that same
frame carries a block phrase. -/
def envHitThenBlock : WorkerEnv :=
  ⟨0, true, 4, 6, fun n => n + 10,
   fun f => if f = 10 then some (50, 60, (9 : ℚ) / 10) else none,
   fun _ => some (100, 200)⟩

def checkFrame10 : Frame → Option String :=
  fun f => if f = 10 then some ("try again later") else none

/-- Template present but the matcher never fires. -/
def envNeverMatch : WorkerEnv :=
  ⟨0, true, 4, 4, fun n => n + 1, fun _ => none, fun _ => some (100, 200)⟩

/-- Template present, matcher fires on the first round at (40, 80) with
confidence 22/25. -/
def envMatchFirst : WorkerEnv :=
  ⟨0, true, 10, 6, fun n => n + 1,
   fun f => if f = 1 then some (40, 80, (22 : ℚ) / 25) else none,
   fun _ => some (100, 200)⟩

/-! # Theorems -/

/-- C3: `SafetyMonitor` counter semantics: `has_daily_capacity` holds iff
the cap is non-positive (unlimited) or `prior + session < cap`;
`remaining_daily_quota` is `none` for a non-positive cap and
`max (cap - (prior + session)) 0` otherwise; `register_result` increments
the session count exactly on `"unfollowed"` and is the identity on every
other status; and with `cap = 3`, `prior = 2` capacity holds with quota 1,
while after one registered `"unfollowed"` capacity is gone and quota 0. -/
theorem claim_C3 (m : SafetyMonitor) :
    (m.hasDailyCapacity = true ↔
      (m.dailyCap ≤ 0 ∨ ((m.actionsToday : Int) + (m.sessionActions : Int) < m.dailyCap)))
    ∧ (m.dailyCap ≤ 0 → m.remainingDailyQuota = none)
    ∧ (0 < m.dailyCap →
        m.remainingDailyQuota =
          some (max (m.dailyCap - ((m.actionsToday : Int) + (m.sessionActions : Int))) 0))
    ∧ m.registerResult ("unfollowed") = ⟨m.dailyCap, m.actionsToday, m.sessionActions + 1⟩
    ∧ (∀ s : String, s ≠ "unfollowed" → m.registerResult s = m)
    ∧ ((⟨3, 2, 0⟩ : SafetyMonitor).hasDailyCapacity = true
        ∧ (⟨3, 2, 0⟩ : SafetyMonitor).remainingDailyQuota = some 1
        ∧ ((⟨3, 2, 0⟩ : SafetyMonitor).registerResult ("unfollowed")).hasDailyCapacity = false
        ∧ ((⟨3, 2, 0⟩ : SafetyMonitor).registerResult ("unfollowed")).remainingDailyQuota = some 0) := by
  refine ⟨?_, ?_, ?_, ?_, ?_, by decide⟩
  · unfold SafetyMonitor.hasDailyCapacity
    split
    · simp_all
    · simp_all
  · intro h
    unfold SafetyMonitor.remainingDailyQuota
    simp [h]
  · intro h
    unfold SafetyMonitor.remainingDailyQuota
    rw [if_neg (by omega)]
  · rfl
  · intro s hs
    unfold SafetyMonitor.registerResult
    simp [hs]

/-- Witness for C3 at `cap = 3`, `prior = 2`, `session = 0`. -/
theorem claim_C3_witness :
    ((0 : Int) < 3 ∧ ("not_found" : String) ≠ "unfollowed")
    ∧ (⟨3, 2, 0⟩ : SafetyMonitor).remainingDailyQuota =
        some (max ((3 : Int) - (((2 : Nat) : Int) + ((0 : Nat) : Int))) 0)
    ∧ (⟨3, 2, 0⟩ : SafetyMonitor).registerResult ("not_found") = ⟨3, 2, 0⟩ :=
  ⟨⟨by decide, by decide⟩,
   (claim_C3 ⟨3, 2, 0⟩).2.2.1 (by decide),
   (claim_C3 ⟨3, 2, 0⟩).2.2.2.2.1 "not_found" (by decide)⟩

/-- C10: appending an outcome to a log that parsed as a JSON list `L`
yields exactly `L ++ [record]`; a missing, malformed, or non-list log is
silently replaced by the one-element list holding the new record. -/
theorem claim_C10 (L : List LogRecord) (r : LogRecord) :
    appendLog (.jsonList L) r = .jsonList (L ++ [r])
    ∧ appendLog .missing r = .jsonList [r]
    ∧ appendLog .malformed r = .jsonList [r]
    ∧ appendLog .notList r = .jsonList [r] :=
  ⟨rfl, rfl, rfl, rfl⟩

/-- C2 (code bug): when the unguarded
`processed.save("logs/debug/last_ocr_processed.png")` at ocr_reader.py:35
fails, `read_username` does not swallow the failure — the exception
propagates out of `read_username` and out of `_extract_username` (whose
`try/except OSError` covers only its own save).  The third conjunct shows
the normal path for contrast. -/
theorem claim_C2_code_divergence :
    readUsername (.error ("save failed")) (pyStr ("jane.doe")) = .error ("save failed")
    ∧ extractUsername true (.ok ()) (.error ("save failed")) (pyStr ("jane.doe"))
        = .error ("save failed")
    ∧ readUsername (.ok ()) (pyStr (" jane.doe ")) = .ok (some (pyStr ("jane.doe"))) :=
  ⟨rfl, rfl, rfl⟩

/-- Closed form of the row loop: starting at `t`, it yields
`(pb - t) / row_height` rows whose tops advance by `row_height`. -/
theorem iterRowsAux_closed (g : PopupGeometry) (hrh : 0 < g.row_height) :
    ∀ (n : Nat) (pb t : Nat), (pb - t) / g.row_height = n →
      iterRowsAux g pb t = (List.range n).map
        (fun i => (t + i * g.row_height, rowCropBox g (t + i * g.row_height))) := by
  intro n
  induction n with
  | zero =>
    intro pb t h
    have hlt : pb - t < g.row_height := (Nat.div_eq_zero_iff hrh).mp h
    rw [iterRowsAux]
    simp [show pb < t + g.row_height by omega]
  | succ n ih =>
    intro pb t h
    have hle : g.row_height ≤ pb - t := by
      by_contra hc
      push_neg at hc
      rw [Nat.div_eq_of_lt hc] at h
      omega
    rw [iterRowsAux, dif_neg (by omega : ¬ pb < t + g.row_height),
      dif_neg (by omega : ¬ g.row_height = 0)]
    have h2 : (pb - (t + g.row_height)) / g.row_height = n := by
      have hd := Nat.div_eq_sub_div hrh hle
      rw [h, Nat.sub_sub] at hd
      exact (Nat.succ_injective hd).symm
    rw [ih pb (t + g.row_height) h2, List.range_succ_eq_map, List.map_cons, List.map_map]
    congr 1
    · simp
    · apply List.map_congr_left
      intro i _
      have e : t + g.row_height + i * g.row_height = t + (i + 1) * g.row_height := by ring
      simp only [Function.comp_apply, e]

/-- C5: with positive row height, the row scanner yields rows `i = 0, 1, …`
whose crop box is `[left, top + i*rh, left + width, top + (i+1)*rh]`, in
number exactly `(frame_height - top_margin) / row_height`; a frame too
short for even one row yields the empty sequence. -/
theorem claim_C5 (g : PopupGeometry) (H : Nat) (hrh : 0 < g.row_height) :
    (iterRows g H).length = (H - g.top_margin) / g.row_height
    ∧ (∀ i (hi : i < (iterRows g H).length),
        (iterRows g H).get ⟨i, hi⟩ =
          (g.top_margin + i * g.row_height,
           g.left_margin,
           g.top_margin + i * g.row_height,
           g.left_margin + g.width,
           g.top_margin + (i + 1) * g.row_height))
    ∧ (H < g.top_margin + g.row_height → iterRows g H = []) := by
  have hb : min (g.top_margin + H - g.top_margin) H = H := by omega
  have hmain : iterRows g H = (List.range ((H - g.top_margin) / g.row_height)).map
      (fun i => (g.top_margin + i * g.row_height,
        rowCropBox g (g.top_margin + i * g.row_height))) := by
    simp only [iterRows]
    rw [hb, iterRowsAux_closed g hrh ((H - g.top_margin) / g.row_height) H g.top_margin rfl]
  refine ⟨by rw [hmain]; simp, ?_, ?_⟩
  · intro i hi
    rw [List.get_of_eq hmain ⟨i, hi⟩]
    simp [rowCropBox, List.get_eq_getElem]
    ring_nf
  · intro hshort
    rw [hmain, Nat.div_eq_of_lt (by omega)]
    simp

/-- Witness for C5 at a concrete geometry: top 220, row height 72, frame
height 1080 gives 11 rows, row 2 at top 364; frame height 250 gives none. -/
theorem claim_C5_witness :
    0 < 72
    ∧ (iterRows ⟨220, 540, 840, 72, 80, 12, 320, 32, 520, 0⟩ 1080).length = 11
    ∧ (250 : Nat) < 220 + 72
    ∧ iterRows ⟨220, 540, 840, 72, 80, 12, 320, 32, 520, 0⟩ 250 = [] := by
  have h1 := claim_C5 ⟨220, 540, 840, 72, 80, 12, 320, 32, 520, 0⟩ 1080 (by decide)
  have h2 := claim_C5 ⟨220, 540, 840, 72, 80, 12, 320, 32, 520, 0⟩ 250 (by decide)
  exact ⟨by decide, by rw [h1.1]; rfl, by decide, h2.2.2 (by decide)⟩

/-- C7: with a safety monitor present, a block phrase detected in the frame
captured at the start of an item makes the outcome `blocked` with the
phrase in its details, and the locator is never invoked. -/
theorem claim_C7 (env : WorkerEnv) (u : String) (dryRun : Bool)
    (c : Frame → Option String) (phrase : String)
    (h : c env.initialFrame = some phrase) :
    (runUnfollow env u dryRun (some c)).result.status = "blocked"
    ∧ (runUnfollow env u dryRun (some c)).result.details.blockPhrase = some phrase
    ∧ (runUnfollow env u dryRun (some c)).locateInvoked = false := by
  simp [runUnfollow, h]

/-- Witness for C7: the detector fires on the initial frame of `envBlocked`. -/
theorem claim_C7_witness :
    checkAlways envBlocked.initialFrame = some ("action blocked")
    ∧ (runUnfollow envBlocked ("alice") false (some checkAlways)).result.status = "blocked"
    ∧ (runUnfollow envBlocked ("alice") false (some checkAlways)).locateInvoked = false :=
  ⟨rfl, (claim_C7 envBlocked ("alice") false checkAlways ("action blocked") rfl).1,
   (claim_C7 envBlocked ("alice") false checkAlways ("action blocked") rfl).2.2⟩

/-- C8: after confirmation polling, block detection runs again on the
last frame captured by the poller (or the original frame when the poller
captured none); a hit there makes the outcome `blocked` — regardless of
whether confirmation succeeded. -/
theorem claim_C8 (env : WorkerEnv) (u : String) (c : Frame → Option String)
    (phrase : String) (x y : Nat)
    (h1 : c env.initialFrame = none)
    (h2 : env.locate env.initialFrame = some (x, y))
    (h3 : c ((confirmUnfollow env false).lastFrame.getD env.initialFrame) = some phrase) :
    (runUnfollow env u false (some c)).result.status = "blocked"
    ∧ (runUnfollow env u false (some c)).result.details.blockPhrase = some phrase := by
  simp [runUnfollow, h1, h2, h3]

/-- Witness for C8: in `envHitThenBlock` the confirmation succeeds on the
first round (frame 10), yet that frame carries a block phrase, so the final
status is `blocked` even though `found = true`. -/
theorem claim_C8_witness :
    (confirmUnfollow envHitThenBlock false).found = true
    ∧ checkFrame10 envHitThenBlock.initialFrame = none
    ∧ (runUnfollow envHitThenBlock ("alice") false (some checkFrame10)).result.status = "blocked" :=
  ⟨rfl, rfl,
   (claim_C8 envHitThenBlock ("alice") checkFrame10 ("try again later") 100 200 rfl rfl rfl).1⟩

/-- When no attempt matches, the confirmation loop misses every round,
capturing the frame of each round as `last_screenshot` and clicking nothing. -/
theorem confirmLoop_all_miss (env : WorkerEnv) (dryRun : Bool) :
    ∀ (l : List Nat) (last : Option Frame),
      (∀ a ∈ l, env.matchOn (env.confirmFrames a) = none) →
      confirmLoop env dryRun l last =
        ⟨false, none, l.foldl (fun _ a => some (env.confirmFrames a)) last, l.length, []⟩ := by
  intro l
  induction l with
  | nil => intro last _; rfl
  | cons a l ih =>
    intro last h
    have ha := h a (List.mem_cons_self a l)
    rw [confirmLoop, ha]
    rw [ih (some (env.confirmFrames a)) (fun b hb => h b (List.mem_cons_of_mem a hb))]
    simp [List.foldl_cons]

/-- When every attempt before `k` misses and attempt `k` hits, the loop
stops at `k` with `pre.length + 1` captures and (outside dry-run) a single
click at the center of the template. -/
theorem confirmLoop_hit (env : WorkerEnv) (dryRun : Bool)
    (mx my : Nat) (conf : ℚ) (k : Nat) :
    ∀ (pre rest : List Nat) (last : Option Frame),
      (∀ a ∈ pre, env.matchOn (env.confirmFrames a) = none) →
      env.matchOn (env.confirmFrames k) = some (mx, my, conf) →
      confirmLoop env dryRun (pre ++ k :: rest) last =
        ⟨true, some conf, some (env.confirmFrames k), pre.length + 1,
         if dryRun then [] else
           [(mx + env.templateWidth / 2, my + env.templateHeight / 2)]⟩ := by
  intro pre
  induction pre with
  | nil =>
    intro rest last _ hk
    rw [List.nil_append, confirmLoop, hk]
    simp
  | cons a pre ih =>
    intro rest last h hk
    have ha := h a (List.mem_cons_self a pre)
    rw [List.cons_append, confirmLoop, ha]
    rw [ih rest (some (env.confirmFrames a)) (fun b hb => h b (List.mem_cons_of_mem a hb)) hk]
    simp [List.length_cons]

/-- C6: with the template present, the poller runs exactly
`CONFIRM_MAX_ATTEMPTS = 8` capture rounds and reports `found = false` with
the last (8th) captured frame when no round matches; if the first match
happens on round `k` (0-based) it stops there with exactly `k + 1`
captures, reports the frame and confidence of that round, and (outside dry-run)
issues exactly one click, at the center of the template. -/
theorem claim_C6 (env : WorkerEnv) (dryRun : Bool)
    (htmpl : env.templateExists = true) :
    ((∀ k < CONFIRM_MAX_ATTEMPTS, env.matchOn (env.confirmFrames k) = none) →
      confirmUnfollow env dryRun =
        ⟨false, none, some (env.confirmFrames 7), CONFIRM_MAX_ATTEMPTS, []⟩)
    ∧ (∀ k mx my conf, k < CONFIRM_MAX_ATTEMPTS →
        (∀ j < k, env.matchOn (env.confirmFrames j) = none) →
        env.matchOn (env.confirmFrames k) = some (mx, my, conf) →
        confirmUnfollow env dryRun =
          ⟨true, some conf, some (env.confirmFrames k), k + 1,
           if dryRun then [] else
             [(mx + env.templateWidth / 2, my + env.templateHeight / 2)]⟩) := by
  constructor
  · intro h
    rw [confirmUnfollow, if_pos htmpl]
    rw [confirmLoop_all_miss env dryRun (List.range CONFIRM_MAX_ATTEMPTS) none
      (fun a ha => h a (List.mem_range.mp ha))]
    rfl
  · intro k mx my conf hk h hsome
    rw [confirmUnfollow, if_pos htmpl]
    have hk8 : k < 8 := hk
    have hsplit : List.range CONFIRM_MAX_ATTEMPTS =
        List.range k ++ k :: List.range' (k + 1) (CONFIRM_MAX_ATTEMPTS - (k + 1)) := by
      interval_cases k <;> rfl
    rw [hsplit]
    rw [confirmLoop_hit env dryRun mx my conf k (List.range k)
      (List.range' (k + 1) (CONFIRM_MAX_ATTEMPTS - (k + 1))) none
      (fun a ha => h a (List.mem_range.mp ha)) hsome]
    simp

/-- Witness for C6: `envNeverMatch` exhausts all 8 rounds; `envMatchFirst`
matches on round 0 (frame 1) and clicks once at the template center
(40 + 5, 80 + 3). -/
theorem claim_C6_witness :
    confirmUnfollow envNeverMatch false =
      ⟨false, none, some 8, CONFIRM_MAX_ATTEMPTS, []⟩
    ∧ confirmUnfollow envMatchFirst false =
      ⟨true, some ((22 : ℚ) / 25), some 1, 1, [(45, 83)]⟩ := by
  constructor
  · exact (claim_C6 envNeverMatch false rfl).1 (fun k _ => rfl)
  · have h := (claim_C6 envMatchFirst false rfl).2 0 40 80 ((22 : ℚ) / 25)
      (by decide) (fun j hj => absurd hj (Nat.not_lt_zero j)) rfl
    rw [h]
    rfl

/-- Structural invariants of the batch loop: the register trace extends the
incoming one by exactly the statuses of the yielded results, the log gains
exactly the yielded records in order, and a `blocked` result is always the
last one yielded. -/
theorem runBatchAux_spec (envs : Nat → WorkerEnv) (c : Frame → Option String)
    (dryRun : Bool) (cap : Int) :
    ∀ (us : List String) (idx : Nat) (m : SafetyMonitor) (log : LogFile)
      (regs : List String),
      (runBatchAux envs c dryRun cap us idx m log regs).registered =
        regs ++ (runBatchAux envs c dryRun cap us idx m log regs).results.map
          (fun r => r.status)
      ∧ loadExistingLog (runBatchAux envs c dryRun cap us idx m log regs).log =
          loadExistingLog log ++
            (runBatchAux envs c dryRun cap us idx m log regs).results.map toRecord
      ∧ ∀ (pre : List UnfollowResult) (r : UnfollowResult) (post : List UnfollowResult),
          (runBatchAux envs c dryRun cap us idx m log regs).results = pre ++ r :: post →
          r.status = "blocked" → post = [] := by
  intro us
  induction us with
  | nil =>
    intro idx m log regs
    refine ⟨by simp [runBatchAux], by simp [runBatchAux], ?_⟩
    intro pre r post h
    rw [runBatchAux] at h
    simp at h
  | cons u rest ih =>
    intro idx m log regs
    rw [runBatchAux]
    by_cases hcap : cap ≤ (idx : Int)
    · rw [if_pos hcap]
      refine ⟨by simp, by simp, ?_⟩
      intro pre r post h
      simp at h
    · rw [if_neg hcap]
      by_cases hdc : !m.hasDailyCapacity
      · rw [if_pos hdc]
        refine ⟨by simp, by simp, ?_⟩
        intro pre r post h
        simp at h
      · rw [if_neg hdc]
        simp only []
        split
        next hbl =>
          refine ⟨by simp, by simp [appendLog, loadExistingLog], ?_⟩
          intro pre r post h _
          match pre with
          | [] =>
            simp at h
            exact h.2
          | p :: pre2 =>
            simp at h
        next hbl =>
          obtain ⟨ihreg, ihlog, ihlast⟩ := ih (idx + 1)
            (m.registerResult (runUnfollow (envs idx) u dryRun (some c)).result.status)
            (appendLog log (toRecord (runUnfollow (envs idx) u dryRun (some c)).result))
            (regs ++ [(runUnfollow (envs idx) u dryRun (some c)).result.status])
          refine ⟨?_, ?_, ?_⟩
          · simp only [List.map_cons]
            rw [ihreg]
            simp
          · simp only [List.map_cons]
            rw [ihlog]
            simp [appendLog, loadExistingLog]
          · intro pre r post h hrs
            match pre with
            | [] =>
              simp at h
              exact absurd (h.1 ▸ hrs) hbl
            | p :: pre2 =>
              simp at h
              exact ihlast pre2 r post h.2 hrs

/-- C9: within one batch run, a `blocked` result is registered with the
monitor (it appears in the register-call trace), appended to the history
log, and is the last result produced — no later identifier is processed,
whatever input, session cap, or quota remain. -/
theorem claim_C9 (envs : Nat → WorkerEnv) (c : Frame → Option String)
    (dryRun : Bool) (sessionCap dailyCap : Int)
    (usernames : List String) (initialLog : LogFile)
    (pre : List UnfollowResult) (r : UnfollowResult) (post : List UnfollowResult)
    (hdecomp :
      (runBatch envs c dryRun sessionCap dailyCap usernames initialLog).results
        = pre ++ r :: post)
    (hrs : r.status = "blocked") :
    post = []
    ∧ "blocked" ∈
        (runBatch envs c dryRun sessionCap dailyCap usernames initialLog).registered
    ∧ toRecord r ∈
        loadExistingLog (runBatch envs c dryRun sessionCap dailyCap usernames initialLog).log := by
  obtain ⟨hreg, hlog, hlast⟩ := runBatchAux_spec envs c dryRun sessionCap usernames 0
    ⟨dailyCap, countActionsFromLog initialLog, 0⟩ initialLog []
  have hr : r ∈ (runBatch envs c dryRun sessionCap dailyCap usernames initialLog).results := by
    rw [hdecomp]
    exact List.mem_append_right pre (List.mem_cons_self r post)
  refine ⟨hlast pre r post hdecomp hrs, ?_, ?_⟩
  · have : (runBatch envs c dryRun sessionCap dailyCap usernames initialLog).registered
        = [] ++ (runBatch envs c dryRun sessionCap dailyCap usernames initialLog).results.map
            (fun x => x.status) := hreg
    rw [this, List.nil_append]
    exact List.mem_map.mpr ⟨r, hr, hrs⟩
  · have : loadExistingLog (runBatch envs c dryRun sessionCap dailyCap usernames initialLog).log
        = loadExistingLog initialLog ++
          (runBatch envs c dryRun sessionCap dailyCap usernames initialLog).results.map
            toRecord := hlog
    rw [this]
    exact List.mem_append_right _ (List.mem_map.mpr ⟨r, hr, rfl⟩)

/-- Witness for C9: a two-identifier batch whose first item hits a block
screen yields exactly one (blocked) result; that record is registered and
logged, and the second identifier is never processed. -/
theorem claim_C9_witness :
    (runBatch (fun _ => envBlocked) checkAlways false 30 150
        (["alice", "bob"]) .missing).results
      = [] ++ (⟨"alice", "blocked",
          ⟨some ("action blocked"), none, none, none⟩⟩ : UnfollowResult) :: []
    ∧ "blocked" ∈ (runBatch (fun _ => envBlocked) checkAlways false 30 150
        (["alice", "bob"]) .missing).registered
    ∧ toRecord (⟨"alice", "blocked",
          ⟨some ("action blocked"), none, none, none⟩⟩ : UnfollowResult) ∈
        loadExistingLog (runBatch (fun _ => envBlocked) checkAlways false 30 150
          (["alice", "bob"]) .missing).log := by
  have h := claim_C9 (fun _ => envBlocked) checkAlways false 30 150
    (["alice", "bob"]) .missing []
    (⟨"alice", "blocked", ⟨some ("action blocked"), none, none, none⟩⟩ : UnfollowResult) []
    rfl rfl
  exact ⟨rfl, h.2.1, h.2.2⟩


/-- C1 counterexample: with the confirmation template missing, the run
does not fail — `run_unfollow` returns the per-item status
`confirm_not_found` and the batch goes on to process the next identifier,
ending with two results. -/
theorem claim_C1_counterexample :
    (runUnfollow envNoTemplate ("alice") false (some checkNever)).result.status
      = "confirm_not_found"
    ∧ (runBatch (fun _ => envNoTemplate) checkNever false 30 150
        (["alice", "bob"]) .missing).results.map (fun r => r.status)
      = ["confirm_not_found", "confirm_not_found"] := by
  constructor
  · rfl
  · rfl

/-- C1 (amended): when the confirmation template file does not exist, the
poller returns immediately — `found = false`, no frame captured, no click —
the item completes with per-item status `confirm_not_found`, and the batch
loop continues with the remaining identifiers exactly as for any other
non-blocked status. -/
theorem claim_C1_amended (env : WorkerEnv) (u : String) (c : Frame → Option String)
    (x y : Nat)
    (h1 : env.templateExists = false)
    (h2 : c env.initialFrame = none)
    (h3 : env.locate env.initialFrame = some (x, y)) :
    confirmUnfollow env false = ⟨false, none, none, 0, []⟩
    ∧ (runUnfollow env u false (some c)).result.status = "confirm_not_found"
    ∧ ∀ (envs : Nat → WorkerEnv) (idx : Nat) (rest : List String) (cap : Int)
        (m : SafetyMonitor) (log : LogFile) (regs : List String),
        envs idx = env → (idx : Int) < cap → m.hasDailyCapacity = true →
        (runBatchAux envs c false cap (u :: rest) idx m log regs).results
          = (runUnfollow env u false (some c)).result ::
            (runBatchAux envs c false cap rest (idx + 1)
              (m.registerResult ("confirm_not_found"))
              (appendLog log (toRecord (runUnfollow env u false (some c)).result))
              (regs ++ ["confirm_not_found"])).results := by
  have hconf : confirmUnfollow env false = ⟨false, none, none, 0, []⟩ := by
    rw [confirmUnfollow, if_neg (by simp [h1])]
  have hrun : (runUnfollow env u false (some c)).result.status = "confirm_not_found" := by
    simp [runUnfollow, h2, h3, hconf]
  refine ⟨hconf, hrun, ?_⟩
  intro envs idx rest cap m log regs henv hcap hdc
  rw [runBatchAux, if_neg (by omega), if_neg (by simp [hdc]), henv]
  simp only []
  rw [if_neg (by rw [hrun]; decide)]
  rw [hrun]

/-- Witness for the amended statement of C1, at the concrete no-template
environment, one pending identifier, and fresh caps. -/
theorem claim_C1_amended_witness :
    confirmUnfollow envNoTemplate false = ⟨false, none, none, 0, []⟩
    ∧ (runUnfollow envNoTemplate ("alice") false (some checkNever)).result.status
        = "confirm_not_found"
    ∧ (runBatchAux (fun _ => envNoTemplate) checkNever false 30 (["alice", "bob"]) 0
        ⟨150, 0, 0⟩ .missing []).results
      = (runUnfollow envNoTemplate ("alice") false (some checkNever)).result ::
        (runBatchAux (fun _ => envNoTemplate) checkNever false 30 (["bob"]) 1
          ((⟨150, 0, 0⟩ : SafetyMonitor).registerResult ("confirm_not_found"))
          (appendLog .missing
            (toRecord (runUnfollow envNoTemplate ("alice") false (some checkNever)).result))
          ["confirm_not_found"]).results := by
  have h := claim_C1_amended envNoTemplate ("alice") checkNever 100 200 rfl rfl rfl
  exact ⟨h.1, h.2.1,
    h.2.2 (fun _ => envNoTemplate) 0 (["bob"]) 30 ⟨150, 0, 0⟩ .missing []
      rfl (by decide) (by decide)⟩

/-- Lowering is idempotent. -/
theorem lowerCode_idem (n : Nat) : lowerCode (lowerCode n) = lowerCode n := by
  unfold lowerCode
  split_ifs <;> omega

theorem pyLower_idem (s : PyStr) : pyLower (pyLower s) = pyLower s := by
  unfold pyLower
  rw [List.map_map]
  exact List.map_congr_left (fun a _ => lowerCode_idem a)

/-- Characters dropped by a `dropWhile` whose predicate forces the filter
predicate (after mapping) to fail do not change the filtered image. -/
theorem filter_map_dropWhile (p q : Nat → Bool) (f : Nat → Nat)
    (hpq : ∀ n, q n = true → p (f n) = false) :
    ∀ l : PyStr, ((l.dropWhile q).map f).filter p = (l.map f).filter p := by
  intro l
  induction l with
  | nil => rfl
  | cons a l ih =>
    by_cases hq : q a = true
    · rw [List.dropWhile_cons_of_pos hq, ih, List.map_cons, List.filter_cons,
        if_neg (by simp [hpq a hq])]
    · rw [List.dropWhile_cons_of_neg hq]

/-- Stripping whitespace before lowering does not change the sanitized
(alphanumeric-only, lower-cased) projection. -/
theorem sanitize_pyNormalize (s : PyStr) : sanitize (pyNormalize s) = sanitize s := by
  have hside : ∀ n, isSpaceCode n = true → isLowerAlnum (lowerCode n) = false := by
    intro n h
    simp only [isSpaceCode, Bool.or_eq_true, decide_eq_true_eq, Bool.and_eq_true] at h
    unfold lowerCode isLowerAlnum
    split_ifs with h1
    · omega
    · simp only [Bool.or_eq_false_iff, Bool.and_eq_false_iff, decide_eq_false_iff_not]
      omega
  unfold sanitize pyNormalize pyStrip
  rw [pyLower_idem]
  unfold pyLower
  rw [List.map_reverse, List.filter_reverse,
    filter_map_dropWhile isLowerAlnum isSpaceCode lowerCode hside,
    ← List.filter_reverse, ← List.map_reverse, List.reverse_reverse,
    filter_map_dropWhile isLowerAlnum isSpaceCode lowerCode hside]

/-- Equal normalizations give equal sanitized projections. -/
theorem sanitize_eq_of_pyNormalize_eq {a b : PyStr} (h : pyNormalize a = pyNormalize b) :
    sanitize a = sanitize b := by
  rw [← sanitize_pyNormalize a, ← sanitize_pyNormalize b, h]

/-- C4: the fuzzy match accepts exactly when the lower-cased
alphanumeric-only projections of candidate and target coincide or the
difflib similarity ratio of the normalized strings reaches the threshold;
hence every string matches itself at any threshold `≤ 1`,
punctuation-only differences always match, and two strings that differ
after stripping punctuation and whose ratio is strictly below the
threshold never match. -/
theorem claim_C4 (c t : PyStr) (th : ℚ) :
    (matchOK c t th = true ↔
      (sanitize c = sanitize t ∨ th ≤ ratioQ (pyNormalize c) (pyNormalize t)))
    ∧ (∀ (x : PyStr) (th2 : ℚ), th2 ≤ 1 → matchOK x x th2 = true)
    ∧ (∀ th2 : ℚ, matchOK (pyStr ("jane.doe")) (pyStr ("janedoe")) th2 = true)
    ∧ (∀ (c2 t2 : PyStr) (th2 : ℚ),
        ratioQ (pyNormalize c2) (pyNormalize t2) < th2 →
        sanitize c2 ≠ sanitize t2 → matchOK c2 t2 th2 = false) := by
  refine ⟨?_, ?_, ?_, ?_⟩
  · simp only [matchOK, isMatchFn]
    split_ifs with h1 h2
    · exact iff_of_true rfl (Or.inl (by rw [← sanitize_pyNormalize c]; exact h1))
    · exact iff_of_true rfl (Or.inl (sanitize_eq_of_pyNormalize_eq h2))
    · rw [decide_eq_true_eq]
      constructor
      · exact Or.inr
      · rintro (hs | hr)
        · exact absurd (by rw [sanitize_pyNormalize]; exact hs) h1
        · exact hr
  · intro x th2 _
    simp only [matchOK]
    rw [if_pos (sanitize_pyNormalize x)]
  · intro th2
    simp only [matchOK]
    rw [if_pos (by rfl :
      sanitize (pyNormalize (pyStr ("jane.doe"))) = sanitize (pyStr ("janedoe")))]
  · intro c2 t2 th2 hlt hne
    simp only [matchOK, isMatchFn]
    rw [if_neg (by rw [sanitize_pyNormalize]; exact hne),
      if_neg (fun h => hne (sanitize_eq_of_pyNormalize_eq h)),
      decide_eq_false (not_le.mpr hlt)]

/-- Witness for C4: the punctuation-only pair matches at threshold 99/100;
a string matches itself at threshold 1/2; `abc` vs `xyz` has ratio 0 and
distinct sanitized projections, so it never matches at threshold 1/2. -/
theorem claim_C4_witness :
    matchOK (pyStr ("jane.doe")) (pyStr ("janedoe")) ((99 : ℚ) / 100) = true
    ∧ ((1 : ℚ) / 2 ≤ 1 ∧ matchOK (pyStr ("abc")) (pyStr ("abc")) ((1 : ℚ) / 2) = true)
    ∧ (ratioQ (pyNormalize (pyStr ("abc"))) (pyNormalize (pyStr ("xyz"))) < (1 : ℚ) / 2
        ∧ sanitize (pyStr ("abc")) ≠ sanitize (pyStr ("xyz"))
        ∧ matchOK (pyStr ("abc")) (pyStr ("xyz")) ((1 : ℚ) / 2) = false) := by
  have h := claim_C4 (pyStr ("abc")) (pyStr ("xyz")) ((1 : ℚ) / 2)
  have e1 : pyNormalize (pyStr ("abc")) = [97, 98, 99] := rfl
  have e2 : pyNormalize (pyStr ("xyz")) = [120, 121, 122] := rfl
  have hm : matchingSum [97, 98, 99] [120, 121, 122] 7 0 3 0 3 = 0 := by decide
  have hr : ratioQ (pyNormalize (pyStr ("abc"))) (pyNormalize (pyStr ("xyz"))) < (1 : ℚ) / 2 := by
    rw [e1, e2]
    simp only [ratioQ, List.length_cons, List.length_nil]
    norm_num [hm]
  refine ⟨h.2.2.1 ((99 : ℚ) / 100), ⟨by norm_num, h.2.1 (pyStr ("abc")) ((1 : ℚ) / 2) (by norm_num)⟩,
    ⟨hr, by decide, h.2.2.2 (pyStr ("abc")) (pyStr ("xyz")) ((1 : ℚ) / 2)
      hr (by decide)⟩⟩

end Unfollowed
